import Mathlib

/-!
Verification development for the `asetta-mcp` server: a shallow embedding of
its configuration resolver, MCP server adapter, tool registry selection and
the pure argument-building parts of the tool handlers, with theorems about
the behaviour of each embedded operation.

Conventions of the embedding:
* JavaScript objects that are used as string-keyed records are modelled as
  association lists or as functions into `Option`.
* JavaScript `bigint` arithmetic is modelled with `Nat` (amounts and values
  in this code base are non-negative integers).
* External effects (RPC calls, HTTP fetch, transaction receipts) are modelled
  by explicit environment records whose fields give the outcome of each
  external call; handlers are pure functions of input and environment.
* Thrown JavaScript errors are modelled with `Except`.
-/

set_option autoImplicit false

namespace Asetta

/-! ## CLI argument model (src/config.ts, getArgs) -/

/-- A parsed CLI argument value: `--k=v` yields a string, a bare `--k` or a
short `-k` flag yields the boolean `true`. -/
inductive JsArgValue where
  | boolVal (b : Bool)
  | strVal (s : String)
  deriving DecidableEq, Repr

/-- JavaScript truthiness of an argument value: `false`, and the empty
string, are falsy; every other value here is truthy. -/
def jsTruthy : JsArgValue → Bool
  | .boolVal b => b
  | .strVal s => s ≠ ""

/-- JavaScript string coercion of an argument value (template-literal and
property-key coercion). -/
def jsToString : JsArgValue → String
  | .boolVal b => if b then "true" else "false"
  | .strVal s => s

/-- JS object assignment `args[k] = v`: overwrite the existing key or append. -/
def setArg : List (String × JsArgValue) → String → JsArgValue → List (String × JsArgValue)
  | [], k, v => [(k, v)]
  | (k', v') :: rest, k, v =>
      if k' = k then (k, v) :: rest else (k', v') :: setArg rest k v

/-- Property read `args[k]`. -/
def lookupArg (args : List (String × JsArgValue)) (k : String) : Option JsArgValue :=
  (args.find? (fun p => p.1 = k)).map (fun p => p.2)

/-- JS `String.prototype.split` with a one-character separator, on the
character list of the string. -/
def splitOnChar (c : Char) : List Char → List (List Char)
  | [] => [[]]
  | x :: xs =>
      match splitOnChar c xs with
      | [] => [[x]]
      | h :: t => if x = c then [] :: h :: t else (x :: h) :: t

/-- Embeds `getArgs` from src/config.ts: a fold over `process.argv` that
parses `--key=value` and `--key` long arguments and `-abc` short flags.
The string slicing and splitting is carried out on character lists. -/
def getArgs (argv : List String) : List (String × JsArgValue) :=
  argv.foldl
    (fun args arg =>
      let cs := arg.toList
      if cs.take 2 = ['-', '-'] then
        let parts := splitOnChar '=' cs
        let key := String.mk ((parts.headD []).drop 2)
        let value : JsArgValue :=
          if parts.length > 1 then .strVal (String.mk ((parts.get? 1).getD []))
          else .boolVal true
        setArg args key value
      else if cs.take 1 = ['-'] then
        (cs.drop 1).foldl
          (fun a c => setArg a (String.mk [c]) (.boolVal true)) args
      else args)
    []

/-! ## Network selection (src/config.ts, getNetwork) -/

/-- The keys of `networkConfigs`, in insertion order (used by
`Object.keys(networkConfigs).join(', ')` in the thrown message). -/
def validNetworks : List String := ["avalancheFuji", "ethereumSepolia", "arbitrumSepolia"]

/-- Embeds `getNetwork` from src/config.ts: a truthy `--network` value that is
not a key of `networkConfigs` throws; a falsy or missing value falls back to
`avalancheFuji`. -/
def getNetwork (args : List (String × JsArgValue)) : Except String String :=
  match lookupArg args "network" with
  | none => .ok "avalancheFuji"
  | some v =>
      if jsTruthy v ∧ jsToString v ∉ validNetworks then
        .error ("Invalid network: " ++ jsToString v ++
          ". Must be one of: avalancheFuji, ethereumSepolia, arbitrumSepolia")
      else if jsTruthy v then .ok (jsToString v)
      else .ok "avalancheFuji"

/-- Network resolution straight from `process.argv`. -/
def getNetworkFromArgv (argv : List String) : Except String String :=
  getNetwork (getArgs argv)

/-! ## Account derivation (src/config.ts, getAccount) -/

/-- A viem account, identified by the private key it was derived from
(`privateKeyToAccount` is applied in both branches of `getAccount`). -/
inductive JsAccount where
  | fromPrivateKey (key : String)
  deriving DecidableEq, Repr

/-- Embeds `getAccount` from src/config.ts. `gen` is the (nondeterministic)
result of `generatePrivateKey()`, passed in explicitly; a truthy
`--wallet_private_key` value `k` is used as `privateKeyToAccount("0x" + k)`. -/
def getAccount (args : List (String × JsArgValue)) (gen : String) : JsAccount :=
  match lookupArg args "wallet_private_key" with
  | some v => if jsTruthy v then .fromPrivateKey ("0x" ++ jsToString v) else .fromPrivateKey gen
  | none => .fromPrivateKey gen

/-- The process-wide configuration computed once at module initialisation:
`export const network = getNetwork()` and `export const account = getAccount()`
(src/config.ts, lines 112-132). A throw from `getNetwork` propagates and the
process never starts, hence the `Except`. -/
structure ProcessConfig where
  network : String
  account : JsAccount
  agentMode : Option JsArgValue
  accessKey : Option JsArgValue
  deriving Repr

/-- Module initialisation of src/config.ts on a given `process.argv`. -/
def initConfig (argv : List String) (gen : String) : Except String ProcessConfig :=
  match getNetwork (getArgs argv) with
  | .error e => .error e
  | .ok net =>
      .ok { network := net
            account := getAccount (getArgs argv) gen
            agentMode := lookupArg (getArgs argv) "agent_mode"
            accessKey := lookupArg (getArgs argv) "access_key" }

/-! ## WalletAgent construction (src/agent/wallet.ts) -/

/-- The fields of a `WalletAgent` that the claims are about: the agent's own
`account` field and the account the wallet client signs with.  Both the
default `walletClient` and every client made by `createClientForNetwork`
are created with the module-level `account` constant (src/config.ts,
lines 141-162). -/
structure WalletAgentM where
  account : JsAccount
  network : String
  walletClientAccount : JsAccount
  deriving DecidableEq, Repr

/-- Embeds the `WalletAgent` constructor (src/agent/wallet.ts, lines 12-33):
with a `networkType` different from the configured network it builds fresh
clients via `createClientForNetwork`, otherwise it reuses the default
clients; in both branches `this.account = account`. -/
def mkWalletAgent (cfg : ProcessConfig) (networkType : Option String) : WalletAgentM :=
  match networkType with
  | some nt =>
      if nt ≠ cfg.network then
        { account := cfg.account, network := nt, walletClientAccount := cfg.account }
      else
        { account := cfg.account, network := cfg.network, walletClientAccount := cfg.account }
  | none =>
      { account := cfg.account, network := cfg.network, walletClientAccount := cfg.account }

/-! ## MCP server adapter (src/index.ts, createMcpServer) -/

/-- A thrown JavaScript value: either an `Error` object carrying a message,
or some other thrown value. -/
inductive JsError where
  | errorObj (message : String)
  | nonError
  deriving DecidableEq, Repr

/-- The text the adapter puts into the response for a thrown value:
`error instanceof Error ? error.message : "Unknown error occurred"`. -/
def jsErrorText : JsError → String
  | .errorObj m => m
  | .nonError => "Unknown error occurred"

/-- One element of the MCP `content` array; `ctype` models the JSON field
named `type` (always `"text"` here). -/
structure McpContent where
  ctype : String
  text : String
  deriving DecidableEq, Repr

/-- The MCP tool response produced by the adapter: `isError` is absent
(`none`) on the success path. -/
structure McpResponse where
  isError : Option Bool
  content : List McpContent
  deriving DecidableEq, Repr

/-- A registered tool, as seen by `createMcpServer`: a name, a description
and a handler from validated params to a result or a thrown value. -/
structure McpToolM (π ρ : Type) where
  name : String
  description : String
  handler : π → Except JsError ρ

/-- Embeds the per-tool callback installed by `createMcpServer`
(src/index.ts, lines 64-93): run the handler; on success wrap the
JSON-serialized result (`stringify` models `JSON.stringify (·, null, 2)`)
in a `content` array; on a throw return `isError := true` and the error
message text. -/
def toolCallback {π ρ : Type} (stringify : ρ → String) (t : McpToolM π ρ) (params : π) :
    McpResponse :=
  match t.handler params with
  | .ok result => { isError := none, content := [{ ctype := "text", text := stringify result }] }
  | .error e => { isError := some true, content := [{ ctype := "text", text := jsErrorText e }] }

/-- Embeds the registration loop of `createMcpServer`: every tool of the
selected tool set is registered under its name with the wrapped callback. -/
def createMcpServer {π ρ : Type} (stringify : ρ → String) (tools : List (McpToolM π ρ)) :
    List (String × (π → McpResponse)) :=
  tools.map (fun t => (t.name, toolCallback stringify t))

/-! ## Agent-mode dispatch (src/index.ts, lines 52-120) -/

/-- Which tool set `createMcpServer` registers. -/
inductive ToolSetChoice where
  | walletTools
  | apiTools
  deriving DecidableEq, Repr

/-- Which agent `main` constructs and passes to every handler. -/
inductive AgentChoice where
  | walletAgent
  | apiAgent
  deriving DecidableEq, Repr

/-- Embeds `const finalTools = agentMode === "tokenization" ? AsettaWalletTools
: AsettaApiTools` (src/index.ts, line 60); `===` on a string literal only
matches a string argument value. -/
def finalTools (agentMode : Option JsArgValue) : ToolSetChoice :=
  if agentMode = some (.strVal "tokenization") then .walletTools else .apiTools

/-- Embeds `const asettaAgent = agentMode === "tokenization" ? new WalletAgent()
: new ApiAgent()` (src/index.ts, line 107). -/
def mainAgent (agentMode : Option JsArgValue) : AgentChoice :=
  if agentMode = some (.strVal "tokenization") then .walletAgent else .apiAgent

/-! ## Chainlink network constants
(src/contracts/constants/chainlink-networks.ts) -/

/-- The three networks accepted by the zod enums of the CCIP tools. -/
inductive Chain where
  | ethereumSepolia
  | arbitrumSepolia
  | avalancheFuji
  deriving DecidableEq, Repr

/-- The string name of a chain (the zod enum value / record key). -/
def chainName : Chain → String
  | .ethereumSepolia => "ethereumSepolia"
  | .arbitrumSepolia => "arbitrumSepolia"
  | .avalancheFuji => "avalancheFuji"

/-- Per-network CCIP configuration record. `chainSelector` is kept as its
decimal string, as in the source; `BigInt` conversion of these distinct
decimal strings is injective. -/
structure ChainlinkNetworkConfig where
  chainId : Nat
  chainSelector : String
  routerAddress : String
  linkAddress : String
  rmnProxyAddress : String
  registryModuleOwnerCustomAddress : String
  tokenAdminRegistryAddress : String
  deriving DecidableEq, Repr

/-- Embeds the `CHAINLINK_NETWORKS` constant.  The lookup is total because
the tools validate chain names with a zod enum over exactly these keys. -/
def CHAINLINK_NETWORKS : Chain → ChainlinkNetworkConfig
  | .ethereumSepolia =>
      { chainId := 11155111
        chainSelector := "16015286601757825753"
        routerAddress := "0x0BF3dE8c5D3e8A2B34D2BEeB17ABfCeBaf363A59"
        linkAddress := "0x779877A7B0D9E8603169DdbD7836e478b4624789"
        rmnProxyAddress := "0xba3f6251de62dED61Ff98590cB2fDf6871FbB991"
        registryModuleOwnerCustomAddress := "0x62e731218d0D47305aba2BE3751E7EE9E5520790"
        tokenAdminRegistryAddress := "0x95F29FEE11c5C55d26cCcf1DB6772DE953B37B82" }
  | .arbitrumSepolia =>
      { chainId := 421614
        chainSelector := "3478487238524512106"
        routerAddress := "0x2a9C5afB0d0e4BAb2BCdaE109EC4b0c4Be15a165"
        linkAddress := "0xb1D4538B4571d411F07960EF2838Ce337FE1E80E"
        rmnProxyAddress := "0x9527E2d01A3064ef6b50c1Da1C0cC523803BCFF2"
        registryModuleOwnerCustomAddress := "0xE625f0b8b0Ac86946035a7729Aba124c8A64cf69"
        tokenAdminRegistryAddress := "0x8126bE56454B628a88C17849B9ED99dd5a11Bd2f" }
  | .avalancheFuji =>
      { chainId := 43113
        chainSelector := "14767482510784806043"
        routerAddress := "0xF694E193200268f9a4868e4Aa017A0118C9a8177"
        linkAddress := "0x0b9d5D9136855f6FEc3c0993feE6E9CE8a297846"
        rmnProxyAddress := "0xAc8CFc3762a979628334a0E4C1026244498E821b"
        registryModuleOwnerCustomAddress := "0x97300785aF1edE1343DB6d90706A35CF14aA3d81"
        tokenAdminRegistryAddress := "0xA92053a4a3922084d992fD2835bdBa4caC6877e6" }

/-- A rate limiter configuration as passed into a chain update.  `isEnabled`
is an `Option` because the user-supplied `rateLimitConfig` object has no
`isEnabled` key, so `rateLimits.isEnabled` reads as JS `undefined` (`none`)
in that case. -/
structure RateLimits where
  isEnabled : Option Bool
  capacity : Nat
  rate : Nat
  deriving DecidableEq, Repr

/-- Embeds `DEFAULT_RATE_LIMIT_CONFIG`
(src/contracts/constants/chainlink-networks.ts, lines 34-38). -/
def DEFAULT_RATE_LIMIT_CONFIG : RateLimits :=
  { isEnabled := some true, capacity := 100000, rate := 167 }

/-! ## asetta_connect_ccip_chains (src/mcp/ccip/connect_ccip_chains_tool.ts) -/

/-- The user-supplied `rateLimitConfig` input object: capacity and rate only. -/
structure UserRateLimit where
  capacity : Nat
  rate : Nat
  deriving DecidableEq, Repr

/-- One entry of the `TokenPool.applyChainUpdates` argument array. -/
structure ChainUpdate where
  remoteChainSelector : String
  remotePoolAddresses : List String
  remoteTokenAddress : String
  outboundRateLimiterConfig : RateLimits
  inboundRateLimiterConfig : RateLimits
  deriving DecidableEq, Repr

/-- One entry of the `connections` result array. -/
structure ChainConnection where
  source_chain : Chain
  target_chain : Chain
  connected : Bool
  transaction_hash : Option String
  error : Option String
  deriving DecidableEq, Repr

/-- Validated input of `asetta_connect_ccip_chains`.  The two address
records are string-keyed JS records queried at chain names, modelled as
functions into `Option`. -/
structure ConnectInput where
  sourceChain : Chain
  targetChains : List Chain
  poolAddresses : Chain → Option String
  tokenAddresses : Chain → Option String
  rateLimitConfig : Option UserRateLimit

/-- Outcomes of the external calls the handler makes: `connect` is
`walletAgent.connect()`; `encodeAddress` is
`encodeAbiParameters([{type:'address'}], [getAddress a])` (which throws on a
bad checksum); `applyChainUpdates` is the write plus
`waitForTransactionReceipt`, returning the tx hash and whether the receipt
status is `'success'`. -/
structure ConnectEnv where
  connect : Except String Unit
  encodeAddress : String → Except String String
  applyChainUpdates : List ChainUpdate → Except String (String × Bool)

/-- JS truthiness of an optional string record entry (`!addr` is true for a
missing key and for the empty string). -/
def strFalsy (o : Option String) : Bool := o.getD "" = ""

/-- The per-target-chain body of the preparation loop (lines 75-151 of the
tool): either a failed `ChainConnection` entry or a prepared `ChainUpdate`. -/
def prepTarget (env : ConnectEnv) (rl : RateLimits) (src : Chain)
    (pools toks : Chain → Option String) (t : Chain) : ChainConnection ⊕ ChainUpdate :=
  if t = src then
    .inl { source_chain := src, target_chain := t, connected := false,
           transaction_hash := none, error := some "Cannot connect chain to itself" }
  else if strFalsy (pools t) ∨ strFalsy (toks t) then
    .inl { source_chain := src, target_chain := t, connected := false,
           transaction_hash := none,
           error := some ("Missing pool or token address for " ++ chainName t) }
  else
    match env.encodeAddress ((pools t).getD "") with
    | .error e =>
        .inl { source_chain := src, target_chain := t, connected := false,
               transaction_hash := none,
               error := some ("Failed to prepare chain update: " ++ e) }
    | .ok encPool =>
        match env.encodeAddress ((toks t).getD "") with
        | .error e =>
            .inl { source_chain := src, target_chain := t, connected := false,
                   transaction_hash := none,
                   error := some ("Failed to prepare chain update: " ++ e) }
        | .ok encTok =>
            .inr { remoteChainSelector := (CHAINLINK_NETWORKS t).chainSelector
                   remotePoolAddresses := [encPool]
                   remoteTokenAddress := encTok
                   outboundRateLimiterConfig := rl
                   inboundRateLimiterConfig := rl }

/-- The result envelope of `asetta_connect_ccip_chains`; on the outer catch
path only `status := "error"` and `errorMessage` are meaningful (the error
envelope of the source has no connection results). -/
structure ConnectResult where
  status : String
  connections : List ChainConnection
  chainUpdates : List ChainUpdate
  rateLimitsUsed : RateLimits
  errorMessage : Option String
  deriving Repr

/-- The rate limits resolved at the top of the handler:
`rateLimitConfig || DEFAULT_RATE_LIMIT_CONFIG` (line 47). -/
def resolveRateLimits (inp : ConnectInput) : RateLimits :=
  match inp.rateLimitConfig with
  | some u => { isEnabled := none, capacity := u.capacity, rate := u.rate }
  | none => DEFAULT_RATE_LIMIT_CONFIG

/-- The preparation loop over all target chains (lines 73-151). -/
def prepList (env : ConnectEnv) (inp : ConnectInput) (rl : RateLimits) :
    List (ChainConnection ⊕ ChainUpdate) :=
  inp.targetChains.map
    (prepTarget env rl inp.sourceChain inp.poolAddresses inp.tokenAddresses)

/-- The failed connections pushed during the preparation loop, in order. -/
def prepConnections (env : ConnectEnv) (inp : ConnectInput) (rl : RateLimits) :
    List ChainConnection :=
  (prepList env inp rl).filterMap (fun p => match p with | .inl c => some c | .inr _ => none)

/-- The `chainUpdates` array handed to `applyChainUpdates`, in order. -/
def chainUpdatesOf (env : ConnectEnv) (inp : ConnectInput) (rl : RateLimits) :
    List ChainUpdate :=
  (prepList env inp rl).filterMap (fun p => match p with | .inr u => some u | .inl _ => none)

/-- The connection entries pushed by the transaction phase (lines 154-199):
nothing when no update was prepared; otherwise, per target chain, a
connected entry on a successful receipt (for targets with both addresses),
or a failed entry on a failed receipt or a throw. -/
def txConnections (env : ConnectEnv) (inp : ConnectInput) (rl : RateLimits) :
    List ChainConnection :=
  if (chainUpdatesOf env inp rl).length > 0 then
    match env.applyChainUpdates (chainUpdatesOf env inp rl) with
    | .ok (hash, true) =>
        inp.targetChains.filterMap
          (fun t =>
            if t ≠ inp.sourceChain ∧ ¬ strFalsy (inp.poolAddresses t) ∧
                ¬ strFalsy (inp.tokenAddresses t) then
              some { source_chain := inp.sourceChain, target_chain := t,
                     connected := true, transaction_hash := some hash, error := none }
            else none)
    | .ok (_, false) =>
        inp.targetChains.filterMap
          (fun t =>
            if t ≠ inp.sourceChain then
              some { source_chain := inp.sourceChain, target_chain := t,
                     connected := false, transaction_hash := none,
                     error := some "Chain update transaction failed" }
            else none)
    | .error e =>
        inp.targetChains.filterMap
          (fun t =>
            if t ≠ inp.sourceChain then
              some { source_chain := inp.sourceChain, target_chain := t,
                     connected := false, transaction_hash := none,
                     error := some ("Transaction failed: " ++ e) }
            else none)
  else []

/-- The connection phase of the handler, reached once `connect()` succeeded
and the source pool address was found: run the preparation loop, the
transaction phase, and derive the status from the failed-connection count
(lines 201-230). -/
def connectPhase (env : ConnectEnv) (inp : ConnectInput) (rl : RateLimits) : ConnectResult :=
  let connections := prepConnections env inp rl ++ txConnections env inp rl
  { status :=
      if (connections.filter (fun c => !c.connected)).length = 0 then "success" else "partial"
    connections := connections
    chainUpdates := chainUpdatesOf env inp rl
    rateLimitsUsed := rl
    errorMessage := none }

/-- Embeds the handler of `asetta_connect_ccip_chains` (lines 37-246):
resolve the rate limits, connect, look up the source pool, then run the
connection phase; a throw before the loop is caught by the outer catch and
yields the error envelope. -/
def connectCCIPChainsHandler (env : ConnectEnv) (inp : ConnectInput) : ConnectResult :=
  match env.connect with
  | .error e =>
      { status := "error", connections := [], chainUpdates := [],
        rateLimitsUsed := resolveRateLimits inp, errorMessage := some e }
  | .ok _ =>
      if strFalsy (inp.poolAddresses inp.sourceChain) then
        { status := "error", connections := [], chainUpdates := [],
          rateLimitsUsed := resolveRateLimits inp,
          errorMessage :=
            some ("Pool address not provided for source chain: " ++ chainName inp.sourceChain) }
      else connectPhase env inp (resolveRateLimits inp)

/-! ## asetta_configure_ccip_roles (src/mcp/ccip/configure_ccip_roles_tool.ts) -/

/-- An on-chain write performed by the configure-roles handler.  In the
source the role argument of `grantRole` is `keccak256(toBytes role)`; the
action carries the preimage string. -/
inductive RoleAction where
  | grantRole (tokenAddr : String) (role : String) (grantee : String)
  | registerAdminViaGetCCIPAdmin (registryModuleAddr : String) (tokenAddr : String)
  | acceptAdminRole (registryAddr : String) (tokenAddr : String)
  | setPool (registryAddr : String) (tokenAddr : String) (poolAddr : String)
  deriving DecidableEq, Repr

/-- The five on-chain steps of the handler, in program order (lines 69-123). -/
def configureRolesPlan (netCfg : ChainlinkNetworkConfig) (tokenAddr poolAddr : String) :
    List RoleAction :=
  [ .grantRole tokenAddr "MINTER_ROLE" poolAddr,
    .grantRole tokenAddr "BURNER_ROLE" poolAddr,
    .registerAdminViaGetCCIPAdmin netCfg.registryModuleOwnerCustomAddress tokenAddr,
    .acceptAdminRole netCfg.tokenAdminRegistryAddress tokenAddr,
    .setPool netCfg.tokenAdminRegistryAddress tokenAddr poolAddr ]

/-- Result envelope of `asetta_configure_ccip_roles`: the five boolean step
flags, the collected transaction hashes and the derived status. -/
structure ConfigureRolesResult where
  minter_role_granted : Bool
  burner_role_granted : Bool
  admin_registered : Bool
  admin_accepted : Bool
  pool_linked : Bool
  transaction_hashes : List String
  status : String
  deriving DecidableEq, Repr

/-- Was an external call successful? -/
def exceptOk {ε α : Type} : Except ε α → Bool
  | .ok _ => true
  | .error _ => false

/-- Embeds the handler of `asetta_configure_ccip_roles` (lines 27-177).
`connectResult` is the outcome of `walletAgent.connect()` (a throw there is
caught by the outer catch and yields the error envelope); `chain` gives the
outcome of each on-chain write together with its receipt wait.  Each of the
five steps sits in its own try/catch: a failure only skips that step's flag
and hash, and the following steps still run. -/
def configureCCIPRolesHandler (connectResult : Except String Unit)
    (chain : RoleAction → Except String String)
    (netCfg : ChainlinkNetworkConfig) (tokenAddr poolAddr : String) : ConfigureRolesResult :=
  match connectResult with
  | .error _ =>
      { minter_role_granted := false, burner_role_granted := false,
        admin_registered := false, admin_accepted := false, pool_linked := false,
        transaction_hashes := [], status := "error" }
  | .ok _ =>
      let plan := configureRolesPlan netCfg tokenAddr poolAddr
      let flags := plan.map (fun a => exceptOk (chain a))
      let hashes := plan.filterMap (fun a => (chain a).toOption)
      let minter := flags.getD 0 false
      let burner := flags.getD 1 false
      let registered := flags.getD 2 false
      let accepted := flags.getD 3 false
      let linked := flags.getD 4 false
      let allConfigured := minter && burner && registered && accepted && linked
      { minter_role_granted := minter
        burner_role_granted := burner
        admin_registered := registered
        admin_accepted := accepted
        pool_linked := linked
        transaction_hashes := hashes
        status := if allConfigured then "success" else "partial" }

/-! ## asetta_send_token (src/mcp/wallet/send_token_tool.ts) -/

/-- viem `parseEther` applied to the decimal string of a whole-number token
amount (`input.amount.toString()`): scale by `10 ^ 18`, independently of the
token's own decimals. -/
def parseEther (amount : Nat) : Nat := amount * 10 ^ 18

/-- Modelled from the spec (C3 comparison definition): converting a token
amount to on-chain base units "using that token's own reported decimals
value" would scale by `10 ^ decimals`. -/
def specBaseUnits (amount decimals : Nat) : Nat := amount * 10 ^ decimals

/-- Validated input of `asetta_send_token`; `amount` is the whole-number
token amount (`z.number().positive()`). -/
structure SendTokenInput where
  token_address : String
  destination : String
  amount : Nat
  memo : Option String
  network : Option String
  deriving Repr

/-- Responses of the token contract and the transaction phase: `balance`,
`symbol` and `decimals` are the three reads of lines 75-92; `txPhase` is the
simulate + write + receipt sequence, returning the tx hash. -/
structure SendTokenEnv where
  balance : Nat
  symbol : String
  decimals : Nat
  txPhase : Except String String
  deriving Repr

/-- The success envelope of `asetta_send_token`, keeping the fields the
claims are about, plus the arguments passed to `ERC20.transfer`. -/
structure SendTokenResult where
  status : String
  transfer_to : String
  transfer_amount : Nat
  transaction_hash : String
  amount_wei : Nat
  decimals : Nat
  token_symbol : String
  deriving Repr

/-- Embeds the handler of `asetta_send_token` (lines 27-157): the amount
sent on chain is `parseEther (input.amount)` — the `decimals` read from the
token is only echoed in the response, never used for conversion.  A
balance shortfall or a failed transaction phase throws, re-thrown by the
outer catch with the `Failed to send tokens:` prefix. -/
def sendTokenHandler (env : SendTokenEnv) (inp : SendTokenInput) :
    Except JsError SendTokenResult :=
  let amount := parseEther inp.amount
  if env.balance < amount then
    .error (.errorObj ("Failed to send tokens: Insufficient " ++ env.symbol ++ " balance"))
  else
    match env.txPhase with
    | .error e => .error (.errorObj ("Failed to send tokens: " ++ e))
    | .ok txHash =>
        .ok { status := "success"
              transfer_to := inp.destination
              transfer_amount := amount
              transaction_hash := txHash
              amount_wei := amount
              decimals := env.decimals
              token_symbol := env.symbol }

/-! ## REST API tools (src/mcp/api) -/

/-- An outgoing HTTP request: method and full URL. -/
structure HttpRequest where
  method : String
  url : String
  deriving DecidableEq, Repr

/-- The access-key resolution shared by the API tools:
`input.access_key || accessKey`, then `if (!apiAccessKey) throw`. -/
def resolveAccessKey (inputKey configKey : Option String) : Except String String :=
  let apiAccessKey := if strFalsy inputKey then configKey else inputKey
  if strFalsy apiAccessKey then
    .error ("Access key is required. Provide it as parameter or set --access_key " ++
      "when starting the agent.")
  else .ok (apiAccessKey.getD "")

/-- Embeds the request of `asetta_get_profile` (get_profile_tool.ts, lines
14-30): a GET against `https://www.asetta.xyz/api/profile` with the access
key interpolated into the query string. -/
def getProfileRequest (inputKey configKey : Option String) : Except String HttpRequest := do
  let k ← resolveAccessKey inputKey configKey
  pure { method := "GET", url := "https://www.asetta.xyz/api/profile?access_key=" ++ k }

/-- Embeds the request of `asetta_get_rwa_projects` (get_rwa_projects_tool.ts,
lines 27-53): a GET against `https://asetta.xyz/api/project` with
`URLSearchParams` (`enc` models its percent-encoding of values). -/
def getRwaProjectsRequest (enc : String → String) (inputKey configKey : Option String)
    (projectId : Option String) : Except String HttpRequest := do
  let k ← resolveAccessKey inputKey configKey
  let params :=
    "access_key=" ++ enc k ++
      (if strFalsy projectId then "" else "&project_id=" ++ enc (projectId.getD ""))
  pure { method := "GET", url := "https://asetta.xyz/api/project?" ++ params }

/-- Embeds the request of `asetta_update_project_status`
(update_project_status_tool.ts, lines 48-102): a PUT against
`https://asetta.xyz/api/project/{project_id}`. -/
def updateProjectStatusRequest (inputKey configKey : Option String) (projectId : String) :
    Except String HttpRequest := do
  let _ ← resolveAccessKey inputKey configKey
  pure { method := "PUT", url := "https://asetta.xyz/api/project/" ++ projectId }

/-- The host part of an `https://` URL: the characters between the scheme
and the first slash of the path. -/
def urlHost (u : String) : String :=
  String.mk ((u.toList.drop 8).takeWhile (fun c => c ≠ '/'))

/-! ## asetta_create_rwa_token (src/mcp/wallet/create_rwa_token_tool.ts) -/

/-- A JS value inside the metadata object literal: a string or a bigint. -/
inductive JsValue where
  | str (s : String)
  | bigint (n : Nat)
  deriving DecidableEq, Repr

/-- Field read on a JS object literal modelled as a key/value list. -/
def jsLookup (fields : List (String × JsValue)) (k : String) : Option JsValue :=
  (fields.find? (fun p => p.1 = k)).map (fun p => p.2)

/-- Validated input of `asetta_create_rwa_token`; `totalValue` is the
decimal integer denoted by the `totalValue` string (`BigInt` parses it and
throws on a non-integer string before the metadata is built). -/
structure CreateRwaTokenInput where
  name : String
  symbol : String
  assetType : String
  description : String
  totalValue : Nat
  url : Option String
  network : Option String

/-- Embeds the metadata object literal the handler builds (lines 75-84):
`totalValue` is `BigInt(input.totalValue) * BigInt(10 ** 8)` and the object
has exactly the keys `assetType`, `description`, `totalValue`, `url`. -/
def createRwaTokenMetadata (inp : CreateRwaTokenInput) : List (String × JsValue) :=
  [ ("assetType", .str inp.assetType),
    ("description", .str inp.description),
    ("totalValue", .bigint (inp.totalValue * 10 ^ 8)),
    ("url", .str (inp.url.getD "")) ]

/-- The argument triple passed to `RWAManager.createRWAToken` (lines 93-102). -/
def createRWATokenArgs (inp : CreateRwaTokenInput) :
    String × String × List (String × JsValue) :=
  (inp.name, inp.symbol, createRwaTokenMetadata inp)

/-! ## Concrete instances used by witness theorems -/

/-- Serialization used in the demonstration instance (models `JSON.stringify`). -/
def demoStringify : Nat → String := toString

/-- A demonstration tool for the adapter theorems: throws on `0`. -/
def demoTool : McpToolM Nat Nat :=
  { name := "asetta_demo", description := "demo",
    handler := fun n => if n = 0 then .error (.errorObj "boom") else .ok (n + 1) }

/-- Token environment on which the send-token conversion bug shows: a
6-decimals token (USDC-like). -/
def usdcLikeEnv : SendTokenEnv :=
  { balance := 10 ^ 18, symbol := "USDC", decimals := 6, txPhase := .ok "0xabc" }

/-- Send one token of the 6-decimals token. -/
def sendOneTokenInput : SendTokenInput :=
  { token_address := "0x5067e9a9154A2EA674DEf639de5e98F238824039",
    destination := "0x0000000000000000000000000000000000000001",
    amount := 1, memo := none, network := none }

/-- The configuration `initConfig` produces for
`--wallet_private_key=abc` with generator result `"0xgen"`. -/
def demoConfig : ProcessConfig :=
  { network := "avalancheFuji", account := .fromPrivateKey "0xabc",
    agentMode := none, accessKey := none }

/-- A connect-chains environment where every external call succeeds. -/
def happyConnectEnv : ConnectEnv :=
  { connect := .ok ()
    encodeAddress := fun a => .ok ("enc:" ++ a)
    applyChainUpdates := fun _ => .ok ("0xhash", true) }

/-- Connect Fuji to Sepolia and (erroneously) to itself. -/
def fujiSelfAndSepoliaInput : ConnectInput :=
  { sourceChain := .avalancheFuji
    targetChains := [.avalancheFuji, .ethereumSepolia]
    poolAddresses := fun _ => some "0x9304F30b1AEfeCB43F86fd5841C6ea75BD0F2529"
    tokenAddresses := fun _ => some "0x16EE94e3C07B24EbA6067eb9394BA70178aAc4c0"
    rateLimitConfig := none }

/-- Connect Fuji to Sepolia with no `rateLimitConfig`. -/
def fujiToSepoliaInput : ConnectInput :=
  { sourceChain := .avalancheFuji
    targetChains := [.ethereumSepolia]
    poolAddresses := fun _ => some "0x9304F30b1AEfeCB43F86fd5841C6ea75BD0F2529"
    tokenAddresses := fun _ => some "0x16EE94e3C07B24EbA6067eb9394BA70178aAc4c0"
    rateLimitConfig := none }

/-- A connect-chains environment for the rate-limit witness. -/
def rateLimitDemoEnv : ConnectEnv :=
  { connect := .ok ()
    encodeAddress := fun a => .ok ("enc:" ++ a)
    applyChainUpdates := fun _ => .ok ("0xfeed", true) }

/-- The profile request built for access key `key1`. -/
def profileDemoRequest : HttpRequest :=
  { method := "GET", url := "https://www.asetta.xyz/api/profile?access_key=key1" }

/-- The projects request built for access key `key1` and project `p1`. -/
def projectsDemoRequest : HttpRequest :=
  { method := "GET", url := "https://asetta.xyz/api/project?access_key=key1&project_id=p1" }

/-- The update request built for access key `key1` and project `p1`. -/
def updateDemoRequest : HttpRequest :=
  { method := "PUT", url := "https://asetta.xyz/api/project/p1" }

/-- The create-RWA-token input of the worked example in the tool schema
(asset value 12500000 USD). -/
def tokyoTowerInput : CreateRwaTokenInput :=
  { name := "Tokyo Shibuya Prime Office Tower", symbol := "TSOT",
    assetType := "real-estate", description := "Prime office tower",
    totalValue := 12500000, url := none, network := none }

/-! ## Helper lemmas -/

theorem chainSelector_inj (a b : Chain)
    (h : (CHAINLINK_NETWORKS a).chainSelector = (CHAINLINK_NETWORKS b).chainSelector) :
    a = b := by
  cases a <;> cases b <;> first | rfl | (exfalso; revert h; decide)

theorem prepTarget_self (env : ConnectEnv) (rl : RateLimits) (src : Chain)
    (pools toks : Chain → Option String) (t : Chain) (h : t = src) :
    prepTarget env rl src pools toks t =
      .inl { source_chain := src, target_chain := t, connected := false,
             transaction_hash := none, error := some "Cannot connect chain to itself" } := by
  subst h
  simp [prepTarget]

theorem prepTarget_inr (env : ConnectEnv) (rl : RateLimits) (src : Chain)
    (pools toks : Chain → Option String) (t : Chain) (u : ChainUpdate)
    (h : prepTarget env rl src pools toks t = .inr u) :
    t ≠ src ∧ u.remoteChainSelector = (CHAINLINK_NETWORKS t).chainSelector ∧
      u.outboundRateLimiterConfig = rl ∧ u.inboundRateLimiterConfig = rl := by
  by_cases hts : t = src
  · rw [prepTarget_self env rl src pools toks t hts] at h
    exact absurd h (by simp)
  · unfold prepTarget at h
    rw [if_neg hts] at h
    split at h
    · exact absurd h (by simp)
    · split at h
      · exact absurd h (by simp)
      · split at h
        · exact absurd h (by simp)
        · injection h with h
          subst h
          exact ⟨hts, rfl, rfl, rfl⟩

theorem mem_chainUpdatesOf (env : ConnectEnv) (inp : ConnectInput) (rl : RateLimits)
    (u : ChainUpdate) (hu : u ∈ chainUpdatesOf env inp rl) :
    ∃ t ∈ inp.targetChains,
      prepTarget env rl inp.sourceChain inp.poolAddresses inp.tokenAddresses t = .inr u := by
  unfold chainUpdatesOf prepList at hu
  rcases List.mem_filterMap.mp hu with ⟨p, hp, hpu⟩
  rcases List.mem_map.mp hp with ⟨t, ht, hpt⟩
  refine ⟨t, ht, ?_⟩
  cases p with
  | inl c => simp at hpu
  | inr u' =>
      simp at hpu
      rw [hpt, hpu]

theorem strAppend_assoc (a b c : String) : a ++ b ++ c = a ++ (b ++ c) := by
  cases a with
  | mk da =>
  cases b with
  | mk db =>
  cases c with
  | mk dc =>
  show String.mk (da ++ db ++ dc) = String.mk (da ++ (db ++ dc))
  rw [List.append_assoc]

/-! ## Claim theorems -/

/-- C1: every tool registered by `createMcpServer` is wrapped so that a
handler throw is surfaced as `isError := true` with a content array holding
the error message text, and a normal return as a content array holding the
serialized result with no `isError` flag. -/
theorem mcpServer_wraps_every_tool {π ρ : Type} (stringify : ρ → String)
    (tools : List (McpToolM π ρ)) (nm : String) (cb : π → McpResponse)
    (hmem : (nm, cb) ∈ createMcpServer stringify tools) :
    ∃ t ∈ tools, nm = t.name ∧
      (∀ p e, t.handler p = .error e →
        cb p = { isError := some true,
                 content := [{ ctype := "text", text := jsErrorText e }] }) ∧
      (∀ p r, t.handler p = .ok r →
        cb p = { isError := none,
                 content := [{ ctype := "text", text := stringify r }] }) := by
  rcases List.mem_map.mp hmem with ⟨t, ht, heq⟩
  have hnm : nm = t.name := by
    have := congrArg Prod.fst heq
    simpa using this.symm
  have hcb : cb = toolCallback stringify t := by
    have := congrArg Prod.snd heq
    simpa using this.symm
  subst hcb
  refine ⟨t, ht, hnm, ?_, ?_⟩
  · intro p e he
    simp [toolCallback, he]
  · intro p r hr
    simp [toolCallback, hr]

/-- Witness for C1 on the demonstration tool. -/
theorem mcpServer_wraps_every_tool_witness :
    ∃ t ∈ [demoTool], "asetta_demo" = t.name ∧
      (∀ p e, t.handler p = .error e →
        toolCallback demoStringify demoTool p =
          { isError := some true,
            content := [{ ctype := "text", text := jsErrorText e }] }) ∧
      (∀ p r, t.handler p = .ok r →
        toolCallback demoStringify demoTool p =
          { isError := none,
            content := [{ ctype := "text", text := demoStringify r }] }) :=
  mcpServer_wraps_every_tool demoStringify [demoTool] "asetta_demo"
    (toolCallback demoStringify demoTool) (by simp [createMcpServer, demoTool])

/-- C7: the registered tool set and the dispatching agent are decided only
by the `agent_mode` value: the string `"tokenization"` selects the wallet
tool set and a `WalletAgent`, anything else (or nothing) selects the API
tool set and an `ApiAgent`. -/
theorem agent_mode_selects_tools_and_agent (mode : Option JsArgValue) :
    (finalTools mode = .walletTools ↔ mode = some (.strVal "tokenization")) ∧
    (mainAgent mode = .walletAgent ↔ mode = some (.strVal "tokenization")) ∧
    (finalTools mode = .apiTools ↔ mode ≠ some (.strVal "tokenization")) ∧
    (mainAgent mode = .apiAgent ↔ mode ≠ some (.strVal "tokenization")) := by
  unfold finalTools mainAgent
  by_cases h : mode = some (.strVal "tokenization") <;> simp [h]

/-- C9 counterexample: on the worked example input the metadata record the
handler passes to `RWAManager.createRWAToken` has no `createdAt` field at
all (the claim asserts a `createdAt` field equal to 0), while `totalValue`
is the input value scaled by `10 ^ 8`. -/
theorem createRwaToken_no_createdAt_field :
    jsLookup (createRwaTokenMetadata tokyoTowerInput) "createdAt" = none ∧
    jsLookup (createRwaTokenMetadata tokyoTowerInput) "createdAt" ≠
      some (.bigint 0) ∧
    jsLookup (createRwaTokenMetadata tokyoTowerInput) "totalValue" =
      some (.bigint 1250000000000000) := by
  refine ⟨by rfl, by decide, by rfl⟩

/-- C9 (amended): the metadata passed to `RWAManager.createRWAToken` has
`totalValue` equal to the input value times `10 ^ 8` exactly, carries
exactly the fields `assetType`, `description`, `totalValue`, `url`, and in
particular has no `createdAt` field. -/
theorem createRwaToken_metadata_shape (inp : CreateRwaTokenInput) :
    (createRWATokenArgs inp).1 = inp.name ∧
    (createRWATokenArgs inp).2.1 = inp.symbol ∧
    jsLookup (createRwaTokenMetadata inp) "totalValue" =
      some (.bigint (inp.totalValue * 10 ^ 8)) ∧
    jsLookup (createRwaTokenMetadata inp) "createdAt" = none ∧
    (createRwaTokenMetadata inp).map Prod.fst =
      ["assetType", "description", "totalValue", "url"] := by
  refine ⟨rfl, rfl, by rfl, by rfl, by rfl⟩

/-- C2: once the connection is up, the configure-roles handler attempts all
five on-chain steps — grant MINTER_ROLE, grant BURNER_ROLE, register the
admin, accept the admin role, link the pool — in program order, each flag
reflecting exactly its own step's outcome (so a failed step never stops the
later ones and no step is retried), the hashes being those of the
successful steps in order, and the status is `"success"` exactly when all
five steps succeeded and `"partial"` otherwise. -/
theorem configureRoles_five_steps (chain : RoleAction → Except String String)
    (netCfg : ChainlinkNetworkConfig) (tokenAddr poolAddr : String) :
    (configureCCIPRolesHandler (.ok ()) chain netCfg tokenAddr poolAddr).minter_role_granted =
      exceptOk (chain (.grantRole tokenAddr "MINTER_ROLE" poolAddr)) ∧
    (configureCCIPRolesHandler (.ok ()) chain netCfg tokenAddr poolAddr).burner_role_granted =
      exceptOk (chain (.grantRole tokenAddr "BURNER_ROLE" poolAddr)) ∧
    (configureCCIPRolesHandler (.ok ()) chain netCfg tokenAddr poolAddr).admin_registered =
      exceptOk (chain (.registerAdminViaGetCCIPAdmin
        netCfg.registryModuleOwnerCustomAddress tokenAddr)) ∧
    (configureCCIPRolesHandler (.ok ()) chain netCfg tokenAddr poolAddr).admin_accepted =
      exceptOk (chain (.acceptAdminRole netCfg.tokenAdminRegistryAddress tokenAddr)) ∧
    (configureCCIPRolesHandler (.ok ()) chain netCfg tokenAddr poolAddr).pool_linked =
      exceptOk (chain (.setPool netCfg.tokenAdminRegistryAddress tokenAddr poolAddr)) ∧
    (configureCCIPRolesHandler (.ok ()) chain netCfg tokenAddr poolAddr).transaction_hashes =
      (configureRolesPlan netCfg tokenAddr poolAddr).filterMap (fun a => (chain a).toOption) ∧
    ((configureCCIPRolesHandler (.ok ()) chain netCfg tokenAddr poolAddr).status = "success" ↔
      ∀ a ∈ configureRolesPlan netCfg tokenAddr poolAddr, exceptOk (chain a) = true) ∧
    ((configureCCIPRolesHandler (.ok ()) chain netCfg tokenAddr poolAddr).status = "success" ∨
      (configureCCIPRolesHandler (.ok ()) chain netCfg tokenAddr poolAddr).status = "partial") := by
  have hred : configureCCIPRolesHandler (.ok ()) chain netCfg tokenAddr poolAddr =
      { minter_role_granted := exceptOk (chain (.grantRole tokenAddr "MINTER_ROLE" poolAddr))
        burner_role_granted := exceptOk (chain (.grantRole tokenAddr "BURNER_ROLE" poolAddr))
        admin_registered := exceptOk (chain (.registerAdminViaGetCCIPAdmin
          netCfg.registryModuleOwnerCustomAddress tokenAddr))
        admin_accepted := exceptOk (chain (.acceptAdminRole
          netCfg.tokenAdminRegistryAddress tokenAddr))
        pool_linked := exceptOk (chain (.setPool
          netCfg.tokenAdminRegistryAddress tokenAddr poolAddr))
        transaction_hashes := (configureRolesPlan netCfg tokenAddr poolAddr).filterMap
          (fun a => (chain a).toOption)
        status :=
          if exceptOk (chain (.grantRole tokenAddr "MINTER_ROLE" poolAddr)) &&
              exceptOk (chain (.grantRole tokenAddr "BURNER_ROLE" poolAddr)) &&
              exceptOk (chain (.registerAdminViaGetCCIPAdmin
                netCfg.registryModuleOwnerCustomAddress tokenAddr)) &&
              exceptOk (chain (.acceptAdminRole
                netCfg.tokenAdminRegistryAddress tokenAddr)) &&
              exceptOk (chain (.setPool
                netCfg.tokenAdminRegistryAddress tokenAddr poolAddr))
            then "success" else "partial" } := rfl
  rw [hred]
  refine ⟨rfl, rfl, rfl, rfl, rfl, rfl, ?_, ?_⟩
  · simp only [configureRolesPlan, List.mem_cons, List.not_mem_nil, or_false,
      forall_eq_or_imp, forall_eq]
    generalize exceptOk (chain (.grantRole tokenAddr "MINTER_ROLE" poolAddr)) = b1
    generalize exceptOk (chain (.grantRole tokenAddr "BURNER_ROLE" poolAddr)) = b2
    generalize exceptOk (chain (.registerAdminViaGetCCIPAdmin
      netCfg.registryModuleOwnerCustomAddress tokenAddr)) = b3
    generalize exceptOk (chain (.acceptAdminRole
      netCfg.tokenAdminRegistryAddress tokenAddr)) = b4
    generalize exceptOk (chain (.setPool
      netCfg.tokenAdminRegistryAddress tokenAddr poolAddr)) = b5
    revert b1 b2 b3 b4 b5
    decide
  · dsimp only
    split
    · exact Or.inl rfl
    · exact Or.inr rfl

/-- C3 evaluated at the failing input: for a token that reports 6 decimals,
sending an amount of 1 passes `10 ^ 18` base units to `ERC20.transfer`
(viem `parseEther`, a fixed 18-decimals conversion), not the
`10 ^ 6 = 1 · 10^decimals` base units the claim requires, even though the
handler reads the token's `decimals` and echoes it in the success
envelope. -/
theorem sendToken_uses_parseEther_not_decimals :
    (sendTokenHandler usdcLikeEnv sendOneTokenInput).map
        (fun r => (r.status, r.transfer_to, r.transfer_amount, r.decimals)) =
      .ok ("success", "0x0000000000000000000000000000000000000001", parseEther 1, 6) ∧
    parseEther 1 = 10 ^ 18 ∧
    specBaseUnits sendOneTokenInput.amount usdcLikeEnv.decimals = 10 ^ 6 ∧
    parseEther sendOneTokenInput.amount ≠
      specBaseUnits sendOneTokenInput.amount usdcLikeEnv.decimals := by
  refine ⟨by rfl, by norm_num [parseEther], by norm_num [specBaseUnits, sendOneTokenInput,
    usdcLikeEnv], by norm_num [parseEther, specBaseUnits, sendOneTokenInput, usdcLikeEnv]⟩

/-- C4 counterexample: `--network=` supplies the `network` flag with the
value `""`, which is outside the valid set, yet network resolution does not
throw — the empty string is falsy, so the code falls back to
`avalancheFuji`. -/
theorem getNetwork_empty_value_no_throw :
    lookupArg (getArgs ["--network="]) "network" = some (.strVal "") ∧
    "" ∉ validNetworks ∧
    getNetworkFromArgv ["--network="] = .ok "avalancheFuji" := by
  refine ⟨by decide, by decide, by rfl⟩

/-- C4 (amended): a missing `--network` flag or an empty value selects
`avalancheFuji`; one of the three network names selects that network; a
non-empty value outside the set throws an error listing the valid options. -/
theorem getNetwork_resolution (args : List (String × JsArgValue)) (s : String) :
    (lookupArg args "network" = none → getNetwork args = .ok "avalancheFuji") ∧
    (lookupArg args "network" = some (.strVal "") →
      getNetwork args = .ok "avalancheFuji") ∧
    (lookupArg args "network" = some (.strVal s) → s ∈ validNetworks →
      getNetwork args = .ok s) ∧
    (lookupArg args "network" = some (.strVal s) → s ∉ validNetworks → s ≠ "" →
      getNetwork args = .error ("Invalid network: " ++ s ++
        ". Must be one of: avalancheFuji, ethereumSepolia, arbitrumSepolia")) := by
  refine ⟨?_, ?_, ?_, ?_⟩
  · intro h
    unfold getNetwork
    rw [h]
  · intro h
    unfold getNetwork
    rw [h]
    simp [jsTruthy]
  · intro h hmem
    unfold getNetwork
    rw [h]
    have hs : s ≠ "" := by
      simp only [validNetworks, List.mem_cons, List.not_mem_nil, or_false] at hmem
      rcases hmem with rfl | rfl | rfl <;> decide
    simp [jsTruthy, jsToString, hs, hmem]
  · intro h hmem hs
    unfold getNetwork
    rw [h]
    simp [jsTruthy, jsToString, hs, hmem]

/-- Witness for C4 (amended) at concrete argument lists. -/
theorem getNetwork_resolution_witness :
    getNetwork [("network", JsArgValue.strVal "ethereumSepolia")] = .ok "ethereumSepolia" ∧
    getNetwork [] = .ok "avalancheFuji" ∧
    getNetwork [("network", JsArgValue.strVal "optimism")] =
      .error ("Invalid network: optimism" ++
        ". Must be one of: avalancheFuji, ethereumSepolia, arbitrumSepolia") := by
  refine ⟨(getNetwork_resolution [("network", JsArgValue.strVal "ethereumSepolia")]
      "ethereumSepolia").2.2.1 (by rfl) (by decide),
    (getNetwork_resolution [] "").1 (by rfl), ?_⟩
  have := (getNetwork_resolution [("network", JsArgValue.strVal "optimism")]
    "optimism").2.2.2 (by rfl) (by decide) (by decide)
  simpa using this

theorem connectPhase_self_mem (env : ConnectEnv) (inp : ConnectInput) (rl : RateLimits)
    (t : Chain) (ht : t ∈ inp.targetChains) (hts : t = inp.sourceChain) :
    ({ source_chain := inp.sourceChain, target_chain := t, connected := false,
       transaction_hash := none,
       error := some "Cannot connect chain to itself" } : ChainConnection) ∈
      (connectPhase env inp rl).connections := by
  have h1 : (Sum.inl
      { source_chain := inp.sourceChain, target_chain := t, connected := false,
        transaction_hash := none,
        error := some "Cannot connect chain to itself" } :
      ChainConnection ⊕ ChainUpdate) ∈ prepList env inp rl := by
    unfold prepList
    exact List.mem_map.mpr ⟨t, ht,
      prepTarget_self env rl inp.sourceChain inp.poolAddresses inp.tokenAddresses t hts⟩
  unfold connectPhase
  dsimp only
  refine List.mem_append_left _ ?_
  unfold prepConnections
  exact List.mem_filterMap.mpr ⟨_, h1, rfl⟩

theorem connectPhase_updates (env : ConnectEnv) (inp : ConnectInput) (rl : RateLimits)
    (u : ChainUpdate) (hu : u ∈ (connectPhase env inp rl).chainUpdates) :
    u.remoteChainSelector ≠ (CHAINLINK_NETWORKS inp.sourceChain).chainSelector ∧
      u.outboundRateLimiterConfig = rl ∧ u.inboundRateLimiterConfig = rl := by
  rcases mem_chainUpdatesOf env inp rl u hu with ⟨t, ht, hpt⟩
  rcases prepTarget_inr env rl inp.sourceChain inp.poolAddresses inp.tokenAddresses t u hpt
    with ⟨hts, hsel, ho, hi⟩
  refine ⟨?_, ho, hi⟩
  rw [hsel]
  intro heq
  exact hts (chainSelector_inj t inp.sourceChain heq)

theorem connectPhase_status (env : ConnectEnv) (inp : ConnectInput) (rl : RateLimits) :
    ((connectPhase env inp rl).status = "success" ∨
      (connectPhase env inp rl).status = "partial") ∧
    ((connectPhase env inp rl).status = "success" ↔
      ∀ c ∈ (connectPhase env inp rl).connections, c.connected = true) := by
  unfold connectPhase
  dsimp only
  constructor
  · split
    · exact Or.inl rfl
    · exact Or.inr rfl
  · constructor
    · intro h c hc
      split at h
      · rename_i hlen
        have hnil := List.length_eq_zero.mp hlen
        have hall := List.filter_eq_nil_iff.mp hnil c hc
        simpa using hall
      · exact absurd h (by decide)
    · intro h
      have hlen : (List.filter (fun c => !c.connected)
          (prepConnections env inp rl ++ txConnections env inp rl)).length = 0 := by
        rw [List.length_eq_zero, List.filter_eq_nil_iff]
        intro a ha
        simp [h a ha]
      rw [if_pos hlen]

theorem connect_handler_ok_eq (env : ConnectEnv) (inp : ConnectInput)
    (hok : env.connect = .ok ())
    (hsp : strFalsy (inp.poolAddresses inp.sourceChain) = false) :
    connectCCIPChainsHandler env inp = connectPhase env inp (resolveRateLimits inp) := by
  unfold connectCCIPChainsHandler
  rw [hok]
  show (if strFalsy (inp.poolAddresses inp.sourceChain) = true then _ else
    connectPhase env inp (resolveRateLimits inp)) = connectPhase env inp (resolveRateLimits inp)
  rw [hsp]
  simp

theorem connect_handler_not_error (env : ConnectEnv) (inp : ConnectInput)
    (hne : (connectCCIPChainsHandler env inp).status ≠ "error") :
    env.connect = .ok () ∧ strFalsy (inp.poolAddresses inp.sourceChain) = false := by
  constructor
  · cases hc : env.connect with
    | ok u => cases u; rfl
    | error e =>
        exfalso
        apply hne
        unfold connectCCIPChainsHandler
        rw [hc]
  · cases hb : strFalsy (inp.poolAddresses inp.sourceChain) with
    | false => rfl
    | true =>
        exfalso
        apply hne
        unfold connectCCIPChainsHandler
        cases hc : env.connect with
        | error e => rfl
        | ok u =>
            show (if strFalsy (inp.poolAddresses inp.sourceChain) = true then
                ({ status := "error", connections := [], chainUpdates := [],
                   rateLimitsUsed := resolveRateLimits inp,
                   errorMessage := some ("Pool address not provided for source chain: " ++
                     chainName inp.sourceChain) } : ConnectResult)
              else connectPhase env inp (resolveRateLimits inp)).status = "error"
            rw [if_pos hb]

/-- C5: the signing account is derived exactly once at configuration time —
from `--wallet_private_key` if that flag is truthy, freshly generated
otherwise — and every `WalletAgent`, whatever (if any) network argument it
is constructed with, carries that same account both as its `account` field
and inside its wallet client. -/
theorem single_account_per_process (argv : List String) (gen : String)
    (cfg : ProcessConfig) (hinit : initConfig argv gen = .ok cfg)
    (nt nt' : Option String) :
    (mkWalletAgent cfg nt).account = cfg.account ∧
    (mkWalletAgent cfg nt).walletClientAccount = cfg.account ∧
    (mkWalletAgent cfg nt).account = (mkWalletAgent cfg nt').account ∧
    cfg.account = getAccount (getArgs argv) gen ∧
    (∀ v, lookupArg (getArgs argv) "wallet_private_key" = some v → jsTruthy v = true →
      cfg.account = .fromPrivateKey ("0x" ++ jsToString v)) ∧
    (lookupArg (getArgs argv) "wallet_private_key" = none →
      cfg.account = .fromPrivateKey gen) := by
  have hacc : ∀ m : Option String, (mkWalletAgent cfg m).account = cfg.account ∧
      (mkWalletAgent cfg m).walletClientAccount = cfg.account := by
    intro m
    cases m with
    | none => exact ⟨rfl, rfl⟩
    | some nt0 =>
        constructor <;>
          · unfold mkWalletAgent
            dsimp only
            split <;> rfl
  have hca : cfg.account = getAccount (getArgs argv) gen := by
    unfold initConfig at hinit
    cases hn : getNetwork (getArgs argv) with
    | error e =>
        rw [hn] at hinit
        exact absurd hinit (by simp)
    | ok net =>
        rw [hn] at hinit
        injection hinit with hrec
        rw [← hrec]
  refine ⟨(hacc nt).1, (hacc nt).2, by rw [(hacc nt).1, (hacc nt').1], hca, ?_, ?_⟩
  · intro v hv htr
    rw [hca]
    unfold getAccount
    rw [hv]
    simp [htr]
  · intro hv
    rw [hca]
    unfold getAccount
    rw [hv]

/-- Witness for C5: concrete process start with a private-key flag, and two
wallet agents, one switched to another network. -/
theorem single_account_per_process_witness :
    (mkWalletAgent demoConfig (some "ethereumSepolia")).account = demoConfig.account ∧
    (mkWalletAgent demoConfig (some "ethereumSepolia")).walletClientAccount =
      demoConfig.account ∧
    (mkWalletAgent demoConfig (some "ethereumSepolia")).account =
      (mkWalletAgent demoConfig none).account ∧
    demoConfig.account = getAccount (getArgs ["--wallet_private_key=abc"]) "0xgen" ∧
    (∀ v, lookupArg (getArgs ["--wallet_private_key=abc"]) "wallet_private_key" = some v →
      jsTruthy v = true → demoConfig.account = .fromPrivateKey ("0x" ++ jsToString v)) ∧
    (lookupArg (getArgs ["--wallet_private_key=abc"]) "wallet_private_key" = none →
      demoConfig.account = .fromPrivateKey "0xgen") :=
  single_account_per_process ["--wallet_private_key=abc"] "0xgen" demoConfig (by rfl)
    (some "ethereumSepolia") none

/-- C6: whenever `asetta_connect_ccip_chains` returns its connection
envelope, a target chain equal to the source chain is reported as a failed
connection with error `Cannot connect chain to itself`, no submitted chain
update carries the source chain's selector, and the status is `"success"`
exactly when every reported connection succeeded and `"partial"`
otherwise. -/
theorem connect_chains_self_and_status (env : ConnectEnv) (inp : ConnectInput)
    (hne : (connectCCIPChainsHandler env inp).status ≠ "error") :
    (∀ t ∈ inp.targetChains, t = inp.sourceChain →
      ({ source_chain := inp.sourceChain, target_chain := t, connected := false,
         transaction_hash := none,
         error := some "Cannot connect chain to itself" } : ChainConnection) ∈
        (connectCCIPChainsHandler env inp).connections) ∧
    (∀ u ∈ (connectCCIPChainsHandler env inp).chainUpdates,
      u.remoteChainSelector ≠ (CHAINLINK_NETWORKS inp.sourceChain).chainSelector) ∧
    ((connectCCIPChainsHandler env inp).status = "success" ∨
      (connectCCIPChainsHandler env inp).status = "partial") ∧
    ((connectCCIPChainsHandler env inp).status = "success" ↔
      ∀ c ∈ (connectCCIPChainsHandler env inp).connections, c.connected = true) := by
  obtain ⟨hok, hsp⟩ := connect_handler_not_error env inp hne
  rw [connect_handler_ok_eq env inp hok hsp]
  exact ⟨fun t ht hts => connectPhase_self_mem env inp (resolveRateLimits inp) t ht hts,
    fun u hu => (connectPhase_updates env inp (resolveRateLimits inp) u hu).1,
    (connectPhase_status env inp (resolveRateLimits inp)).1,
    (connectPhase_status env inp (resolveRateLimits inp)).2⟩

/-- Witness for C6: connecting Fuji to itself and to Sepolia in an
environment where the transaction succeeds. -/
theorem connect_chains_self_and_status_witness :
    (∀ t ∈ fujiSelfAndSepoliaInput.targetChains, t = fujiSelfAndSepoliaInput.sourceChain →
      ({ source_chain := fujiSelfAndSepoliaInput.sourceChain, target_chain := t,
         connected := false, transaction_hash := none,
         error := some "Cannot connect chain to itself" } : ChainConnection) ∈
        (connectCCIPChainsHandler happyConnectEnv fujiSelfAndSepoliaInput).connections) ∧
    (∀ u ∈ (connectCCIPChainsHandler happyConnectEnv fujiSelfAndSepoliaInput).chainUpdates,
      u.remoteChainSelector ≠
        (CHAINLINK_NETWORKS fujiSelfAndSepoliaInput.sourceChain).chainSelector) ∧
    ((connectCCIPChainsHandler happyConnectEnv fujiSelfAndSepoliaInput).status = "success" ∨
      (connectCCIPChainsHandler happyConnectEnv fujiSelfAndSepoliaInput).status = "partial") ∧
    ((connectCCIPChainsHandler happyConnectEnv fujiSelfAndSepoliaInput).status = "success" ↔
      ∀ c ∈ (connectCCIPChainsHandler happyConnectEnv fujiSelfAndSepoliaInput).connections,
        c.connected = true) :=
  connect_chains_self_and_status happyConnectEnv fujiSelfAndSepoliaInput (by decide)

/-- C10: when no `rateLimitConfig` is supplied, every chain update submitted
by `asetta_connect_ccip_chains` carries identical outbound and inbound rate
limiter configurations, both the enabled default with capacity 100000 and
rate 167. -/
theorem connect_chains_default_rate_limits (env : ConnectEnv) (inp : ConnectInput)
    (h : inp.rateLimitConfig = none) :
    ∀ u ∈ (connectCCIPChainsHandler env inp).chainUpdates,
      u.outboundRateLimiterConfig = u.inboundRateLimiterConfig ∧
      u.outboundRateLimiterConfig = DEFAULT_RATE_LIMIT_CONFIG ∧
      u.outboundRateLimiterConfig.isEnabled = some true ∧
      u.outboundRateLimiterConfig.capacity = 100000 ∧
      u.outboundRateLimiterConfig.rate = 167 := by
  intro u hu
  have hrl : resolveRateLimits inp = DEFAULT_RATE_LIMIT_CONFIG := by
    unfold resolveRateLimits
    rw [h]
  cases hc : env.connect with
  | error e =>
      unfold connectCCIPChainsHandler at hu
      rw [hc] at hu
      exact absurd hu (by simp)
  | ok v =>
      cases v
      by_cases hb : strFalsy (inp.poolAddresses inp.sourceChain) = true
      · unfold connectCCIPChainsHandler at hu
        rw [hc] at hu
        have hu' : u ∈ (if strFalsy (inp.poolAddresses inp.sourceChain) = true then
            ({ status := "error", connections := [], chainUpdates := [],
               rateLimitsUsed := resolveRateLimits inp,
               errorMessage := some ("Pool address not provided for source chain: " ++
                 chainName inp.sourceChain) } : ConnectResult)
          else connectPhase env inp (resolveRateLimits inp)).chainUpdates := hu
        rw [if_pos hb] at hu'
        exact absurd hu' (by simp)
      · have hbf : strFalsy (inp.poolAddresses inp.sourceChain) = false := by
          revert hb
          cases strFalsy (inp.poolAddresses inp.sourceChain) <;> simp
        rw [connect_handler_ok_eq env inp hc hbf] at hu
        have hud := connectPhase_updates env inp (resolveRateLimits inp) u hu
        have ho := hud.2.1
        have hi := hud.2.2
        rw [hrl] at ho hi
        exact ⟨by rw [ho, hi], ho, by rw [ho]; rfl, by rw [ho]; rfl, by rw [ho]; rfl⟩

/-- Witness for C10: a concrete Fuji-to-Sepolia connection without a
`rateLimitConfig`, whose prepared chain-update list is non-empty. -/
theorem connect_chains_default_rate_limits_witness :
    (∀ u ∈ (connectCCIPChainsHandler rateLimitDemoEnv fujiToSepoliaInput).chainUpdates,
      u.outboundRateLimiterConfig = u.inboundRateLimiterConfig ∧
      u.outboundRateLimiterConfig = DEFAULT_RATE_LIMIT_CONFIG ∧
      u.outboundRateLimiterConfig.isEnabled = some true ∧
      u.outboundRateLimiterConfig.capacity = 100000 ∧
      u.outboundRateLimiterConfig.rate = 167) ∧
    (connectCCIPChainsHandler rateLimitDemoEnv fujiToSepoliaInput).chainUpdates ≠ [] :=
  ⟨connect_chains_default_rate_limits rateLimitDemoEnv fujiToSepoliaInput rfl, by decide⟩

/-- C8 counterexample: on explicit inputs, `asetta_get_profile` targets the
host `www.asetta.xyz` while `asetta_get_rwa_projects` and
`asetta_update_project_status` target the host `asetta.xyz` — the API tools
do not all address one fixed backend host. -/
theorem api_tools_hosts_differ :
    getProfileRequest (some "k") none =
      .ok { method := "GET", url := "https://www.asetta.xyz/api/profile?access_key=k" } ∧
    getRwaProjectsRequest id (some "k") none none =
      .ok { method := "GET", url := "https://asetta.xyz/api/project?access_key=k" } ∧
    updateProjectStatusRequest (some "k") none "42" =
      .ok { method := "PUT", url := "https://asetta.xyz/api/project/42" } ∧
    urlHost "https://www.asetta.xyz/api/profile?access_key=k" = "www.asetta.xyz" ∧
    urlHost "https://asetta.xyz/api/project?access_key=k" = "asetta.xyz" ∧
    ("www.asetta.xyz" : String) ≠ "asetta.xyz" := by
  refine ⟨by rfl, by rfl, by rfl, by rfl, by rfl, by decide⟩

/-- C8 (amended): the endpoint shapes are as stated — GET
`/api/profile?access_key=` for `asetta_get_profile`, GET `/api/project` for
`asetta_get_rwa_projects`, PUT `/api/project/{id}` for
`asetta_update_project_status` — but the profile tool addresses the host
`www.asetta.xyz` while the two project tools address `asetta.xyz`. -/
theorem api_request_shapes (enc : String → String) (ik ck pid : Option String)
    (projectId : String) :
    (∀ r, getProfileRequest ik ck = .ok r →
      r.method = "GET" ∧
      ∃ k, r.url = "https://www.asetta.xyz/api/profile?access_key=" ++ k) ∧
    (∀ r, getRwaProjectsRequest enc ik ck pid = .ok r →
      r.method = "GET" ∧
      ∃ q, r.url = "https://asetta.xyz/api/project?access_key=" ++ q) ∧
    (∀ r, updateProjectStatusRequest ik ck projectId = .ok r →
      r.method = "PUT" ∧ r.url = "https://asetta.xyz/api/project/" ++ projectId) := by
  refine ⟨?_, ?_, ?_⟩
  · intro r hr
    unfold getProfileRequest at hr
    cases hk : resolveAccessKey ik ck with
    | error e =>
        rw [hk] at hr
        exact absurd hr (by simp [Bind.bind, Except.bind])
    | ok k =>
        rw [hk] at hr
        have hr' : (Except.ok
            { method := "GET",
              url := "https://www.asetta.xyz/api/profile?access_key=" ++ k } :
            Except String HttpRequest) = Except.ok r := hr
        injection hr' with h
        rw [← h]
        exact ⟨rfl, k, rfl⟩
  · intro r hr
    unfold getRwaProjectsRequest at hr
    cases hk : resolveAccessKey ik ck with
    | error e =>
        rw [hk] at hr
        exact absurd hr (by simp [Bind.bind, Except.bind])
    | ok k =>
        rw [hk] at hr
        have hr' : (Except.ok
            { method := "GET",
              url := "https://asetta.xyz/api/project?" ++ ("access_key=" ++ enc k ++
                (if strFalsy pid = true then "" else
                  "&project_id=" ++ enc (pid.getD ""))) } :
            Except String HttpRequest) = Except.ok r := hr
        injection hr' with h
        rw [← h]
        refine ⟨rfl, enc k ++
          (if strFalsy pid = true then "" else "&project_id=" ++ enc (pid.getD "")), ?_⟩
        show "https://asetta.xyz/api/project?" ++ ("access_key=" ++ enc k ++
            (if strFalsy pid = true then "" else "&project_id=" ++ enc (pid.getD ""))) = _
        rw [strAppend_assoc "access_key=" (enc k)
            (if strFalsy pid = true then "" else "&project_id=" ++ enc (pid.getD "")),
          ← strAppend_assoc "https://asetta.xyz/api/project?" "access_key="
            (enc k ++ (if strFalsy pid = true then "" else
              "&project_id=" ++ enc (pid.getD "")))]
        rfl
  · intro r hr
    unfold updateProjectStatusRequest at hr
    cases hk : resolveAccessKey ik ck with
    | error e =>
        rw [hk] at hr
        exact absurd hr (by simp [Bind.bind, Except.bind])
    | ok k =>
        rw [hk] at hr
        have hr' : (Except.ok
            { method := "PUT",
              url := "https://asetta.xyz/api/project/" ++ projectId } :
            Except String HttpRequest) = Except.ok r := hr
        injection hr' with h
        rw [← h]
        exact ⟨rfl, rfl⟩

/-- Witness for C8 (amended) at concrete keys and project ids. -/
theorem api_request_shapes_witness :
    (profileDemoRequest.method = "GET" ∧
      ∃ k, profileDemoRequest.url = "https://www.asetta.xyz/api/profile?access_key=" ++ k) ∧
    (projectsDemoRequest.method = "GET" ∧
      ∃ q, projectsDemoRequest.url = "https://asetta.xyz/api/project?access_key=" ++ q) ∧
    (updateDemoRequest.method = "PUT" ∧
      updateDemoRequest.url = "https://asetta.xyz/api/project/" ++ "p1") :=
  ⟨(api_request_shapes id (some "key1") none (some "p1") "p1").1
      profileDemoRequest (by rfl),
    (api_request_shapes id (some "key1") none (some "p1") "p1").2.1
      projectsDemoRequest (by rfl),
    (api_request_shapes id (some "key1") none (some "p1") "p1").2.2
      updateDemoRequest (by rfl)⟩

end Asetta
